import Mathlib

/-!
# Verification of sugo-module-serialport

Shallow embedding of the serial-port adapter package.  The repository ships
several variants of the adapter:

* the ctx-style module function in `lib/sugo_module_serialport.js`
  (methods take a `ctx = {params, pipe}` argument);
* the direct-argument module function (second revision of the same file);
* the interface function in `lib/sugo_interface_serialport.js`
  (only `ping`, `assert`);
* the class `Serialport` in `lib/serialport.js` (extends `Module`,
  per-instance `_driver` slot, `connect` method).

Every definition below is translated from the JavaScript source.  Promises
are modelled by an explicit `Outcome` type (`resolved`/`rejected`/`pending`),
and the calls a method makes on the underlying native driver are recorded
explicitly so that "performs no driver call" claims can be stated.
-/

set_option autoImplicit false

namespace SugoSerialport

/-- JavaScript values that cross the adapter boundary (payloads, results). -/
inductive JsValue where
  | undef
  | nullv
  | bool (b : Bool)
  | str (s : String)
  | num (n : Nat)
  deriving DecidableEq, Repr

/-- A handle to a native serial-port object, identified by a number. -/
abbrev Port := Nat

/-- Errors observable from the adapter: `assertionErr` is what `assert.ok`
throws, `jsError` a synchronous exception (e.g. a constructor throw), and
`driverErr` an error object the native driver passes to a callback or
emits on its `error` event. -/
inductive JsErr where
  | assertionErr (msg : String)
  | jsError (msg : String)
  | driverErr (msg : String)
  deriving DecidableEq, Repr

/-- The message of the guard error, `const NOT_CONNECT = 'Serialport is not
connected'` in `sugo_module_serialport.js` (the class variant uses the same
string literally in its `driver` getter). -/
def NOT_CONNECT : String := "Serialport is not connected"

/-- The guard error itself: `assert.ok(_serialport, NOT_CONNECT)` throws an
assertion error carrying this message. -/
def notConnectedErr : JsErr := JsErr.assertionErr NOT_CONNECT

/-- Settlement state of a promise. -/
inductive Outcome (α : Type) where
  | resolved (v : α)
  | rejected (e : JsErr)
  | pending
  deriving DecidableEq, Repr

/-- One invocation of a promise's resolution functions. -/
inductive ResolutionCall where
  | resolveU
  | rejectE (e : JsErr)
  deriving DecidableEq, Repr

/-- The module variants' `_handle` (`sugo_module_serialport.js`):
`(err) => { if (err) { reject(err) } resolve() }` — note the missing
`else`: on a truthy error it invokes `reject(err)` and then still invokes
`resolve()`.  The result is the list of invocations, in order. -/
def module_handle (err : Option String) : List ResolutionCall :=
  match err with
  | some e => [ResolutionCall.rejectE (JsErr.driverErr e), ResolutionCall.resolveU]
  | none => [ResolutionCall.resolveU]

/-- The class variant's `_handle` (`lib/serialport.js`):
`(err) => err ? reject(err) : resolve()` — exactly one invocation. -/
def class_handle (err : Option String) : List ResolutionCall :=
  match err with
  | some e => [ResolutionCall.rejectE (JsErr.driverErr e)]
  | none => [ResolutionCall.resolveU]

/-- JavaScript promise semantics: the first call to `resolve`/`reject` wins;
every later call is a no-op.  An empty invocation list leaves the promise
pending.  A bare `resolve()` fulfills with `undefined`. -/
def settleCalls (calls : List ResolutionCall) : Outcome JsValue :=
  match calls with
  | [] => Outcome.pending
  | ResolutionCall.resolveU :: _ => Outcome.resolved JsValue.undef
  | ResolutionCall.rejectE e :: _ => Outcome.rejected e

/-! ## ping

Ctx-style (`sugo_module_serialport.js` rev 1 and
`sugo_interface_serialport.js`): `return params[0] || 'pong'`.
Class / direct-argument style: `ping (pong = 'pong') { return co(... pong) }`.
-/

/-- JavaScript `x || d` on a possibly-undefined string: `undefined` and the
empty string are falsy, every other string is truthy. -/
def jsOrStr (x : Option String) (d : String) : String :=
  match x with
  | none => d
  | some s => if s.isEmpty then d else s

/-- Ctx-style `ping` (`sugo_module_serialport.js` lines 30–35 and
`sugo_interface_serialport.js` lines 27–32): reads `params[0]`, returns
`params[0] || 'pong'`; the connection slot is untouched. -/
def modulePing (slot : Option Port) (params : List String) :
    Option Port × String :=
  (slot, jsOrStr params.head? "pong")

/-- Class-variant `ping (pong = 'pong')`: the default applies only when the
argument is absent (`undefined`); the `_driver` slot is untouched. -/
def classPing (slot : Option Port) (pong : Option String) :
    Option Port × String :=
  (slot, pong.getD "pong")

/-! ## I/O methods

Each I/O method of the module variants first runs
`assert.ok(_serialport, NOT_CONNECT)` and then calls exactly one method on
the stored driver; callback-style driver methods complete through
`_handle(resolve, reject)`.  The class variant destructures
`let { driver } = s`, whose getter runs
`assert.ok(_driver, 'Serialport is not connected')` — except `isOpen`,
which reads `_driver` directly and returns `_driver && _driver.isOpen()`.
-/

/-- One call on the underlying native driver. -/
inductive DriverCall where
  | newC (path : String)
  | openC (p : Port)
  | closeC (p : Port)
  | flushC (p : Port)
  | drainC (p : Port)
  | pauseC (p : Port)
  | resumeC (p : Port)
  | writeC (p : Port) (data : JsValue)
  | setC (p : Port) (opts : JsValue)
  | updateC (p : Port) (opts : JsValue)
  | isOpenC (p : Port)
  | listC
  deriving DecidableEq, Repr

/-- What one invocation of an adapter method does: how its promise settles,
which driver calls it makes, and the connection slot it leaves behind. -/
structure MethodRun where
  outcome : Outcome JsValue
  calls : List DriverCall
  slotAfter : Option Port
  deriving DecidableEq, Repr

/-- The nine I/O methods named by the spec's not-connected invariant. -/
inductive PortMethod where
  | writeM | closeM | flushM | drainM | pauseM | resumeM | setM | updateM
  | isOpenM
  deriving DecidableEq, Repr

/-- The environment a driver call runs against: `err` is the error the
driver passes to a callback-style completion (`none` = success), `dOpen`
the boolean the driver's `isOpen()` returns. -/
structure DriverEnv where
  err : Option String
  dOpen : Bool
  deriving DecidableEq, Repr

/-- Module-variant I/O dispatch (`sugo_module_serialport.js`).  With an
empty slot every method rejects with the `assert.ok` error before touching
the driver; with a stored port each makes its single driver call, the
callback-style ones settling through `module_handle`, `pause`/`resume`
resolving `undefined` after the bare call, `isOpen` resolving the driver's
boolean. -/
def moduleDispatch (m : PortMethod) (slot : Option Port) (env : DriverEnv)
    (data opts : JsValue) : MethodRun :=
  match slot with
  | none => ⟨Outcome.rejected notConnectedErr, [], none⟩
  | some p =>
    match m with
    | PortMethod.writeM =>
        ⟨settleCalls (module_handle env.err), [DriverCall.writeC p data], some p⟩
    | PortMethod.closeM =>
        ⟨settleCalls (module_handle env.err), [DriverCall.closeC p], some p⟩
    | PortMethod.flushM =>
        ⟨settleCalls (module_handle env.err), [DriverCall.flushC p], some p⟩
    | PortMethod.drainM =>
        ⟨settleCalls (module_handle env.err), [DriverCall.drainC p], some p⟩
    | PortMethod.pauseM =>
        ⟨Outcome.resolved JsValue.undef, [DriverCall.pauseC p], some p⟩
    | PortMethod.resumeM =>
        ⟨Outcome.resolved JsValue.undef, [DriverCall.resumeC p], some p⟩
    | PortMethod.setM =>
        ⟨settleCalls (module_handle env.err), [DriverCall.setC p opts], some p⟩
    | PortMethod.updateM =>
        ⟨settleCalls (module_handle env.err), [DriverCall.updateC p opts], some p⟩
    | PortMethod.isOpenM =>
        ⟨Outcome.resolved (JsValue.bool env.dOpen), [DriverCall.isOpenC p], some p⟩

/-- Class-variant I/O dispatch (`lib/serialport.js`).  Every method except
`isOpen` reaches the driver through the guarded `driver` getter, so an
empty `_driver` slot rejects with the same assertion error; callback-style
completions settle through `class_handle`.  `isOpen` bypasses the getter:
`return _driver && _driver.isOpen()`, so with an empty slot it resolves to
`null` and makes no driver call. -/
def classDispatch (m : PortMethod) (slot : Option Port) (env : DriverEnv)
    (data opts : JsValue) : MethodRun :=
  match slot with
  | none =>
    match m with
    | PortMethod.isOpenM => ⟨Outcome.resolved JsValue.nullv, [], none⟩
    | _ => ⟨Outcome.rejected notConnectedErr, [], none⟩
  | some p =>
    match m with
    | PortMethod.writeM =>
        ⟨settleCalls (class_handle env.err), [DriverCall.writeC p data], some p⟩
    | PortMethod.closeM =>
        ⟨settleCalls (class_handle env.err), [DriverCall.closeC p], some p⟩
    | PortMethod.flushM =>
        ⟨settleCalls (class_handle env.err), [DriverCall.flushC p], some p⟩
    | PortMethod.drainM =>
        ⟨settleCalls (class_handle env.err), [DriverCall.drainC p], some p⟩
    | PortMethod.pauseM =>
        ⟨Outcome.resolved JsValue.undef, [DriverCall.pauseC p], some p⟩
    | PortMethod.resumeM =>
        ⟨Outcome.resolved JsValue.undef, [DriverCall.resumeC p], some p⟩
    | PortMethod.setM =>
        ⟨settleCalls (class_handle env.err), [DriverCall.setC p opts], some p⟩
    | PortMethod.updateM =>
        ⟨settleCalls (class_handle env.err), [DriverCall.updateC p opts], some p⟩
    | PortMethod.isOpenM =>
        ⟨Outcome.resolved (JsValue.bool env.dOpen), [DriverCall.isOpenC p], some p⟩

/-- The module variant's `open` method (not among the nine I/O methods of
the not-connected claim, but relevant to the frame claim): guarded by the
same `assert.ok`, then `_serialport.open(_handle(resolve, reject))`. -/
def moduleOpenOp (slot : Option Port) (env : DriverEnv) : MethodRun :=
  match slot with
  | none => ⟨Outcome.rejected notConnectedErr, [], none⟩
  | some p => ⟨settleCalls (module_handle env.err), [DriverCall.openC p], some p⟩

/-- The class variant's `open` method: `let { driver } = s` (guarded
getter), then `driver.open(_handle(resolve, reject))`. -/
def classOpenOp (slot : Option Port) (env : DriverEnv) : MethodRun :=
  match slot with
  | none => ⟨Outcome.rejected notConnectedErr, [], none⟩
  | some p => ⟨settleCalls (class_handle env.err), [DriverCall.openC p], some p⟩

/-! ## Connect / SerialPort and the event relay -/

/-- Outcome of `new Serialport(path, options)`: either the constructor
throws synchronously, or it yields a port object. -/
inductive CtorResult where
  | throwsE (e : String)
  | ok (p : Port)
  deriving DecidableEq, Repr

/-- Which of the driver's `open` / `error` events fires first after
construction (or neither ever fires). -/
inductive FirstSignal where
  | openFirst
  | errorFirst (e : String)
  | neither
  deriving DecidableEq, Repr

/-- What one invocation of the connect/create operation does. -/
structure ConnectRun where
  outcome : Outcome JsValue
  slotAfter : Option Port
  subscribed : List String
  deriving DecidableEq, Repr

/-- The event list both variants subscribe to and forward
(`portsPipe([...])` in the module, `pipeEvents` in the class). -/
def pipeEvents : List String :=
  ["data", "error", "close", "disconnect", "open"]

/-- The module variant's `SerialPort` method
(`sugo_module_serialport.js` lines 77–99): a constructor throw is caught
and rejects the promise; otherwise the port is stored in `_serialport` and
the five events are piped — but the executor never invokes `resolve` (nor
`reject`) afterwards, so the promise stays pending no matter which event
the driver reports. -/
def moduleSerialPort (slot : Option Port) (ctor : CtorResult)
    (fs : FirstSignal) : ConnectRun :=
  match ctor with
  | CtorResult.throwsE e => ⟨Outcome.rejected (JsErr.jsError e), slot, []⟩
  | CtorResult.ok p =>
    match fs with
    | _ => ⟨Outcome.pending, some p, pipeEvents⟩

/-- The class variant's `connect` method (`lib/serialport.js`
lines 105–123): constructs the driver inside `co` (a synchronous throw
rejects), pipes the five events, then yields on a promise that rejects on
the driver's first `error` and resolves on `open`; only after that
resolution is `s._driver = driver` executed. -/
def classConnect (slot : Option Port) (ctor : CtorResult)
    (fs : FirstSignal) : ConnectRun :=
  match ctor with
  | CtorResult.throwsE e => ⟨Outcome.rejected (JsErr.jsError e), slot, []⟩
  | CtorResult.ok p =>
    match fs with
    | FirstSignal.errorFirst e =>
        ⟨Outcome.rejected (JsErr.driverErr e), slot, pipeEvents⟩
    | FirstSignal.openFirst => ⟨Outcome.resolved JsValue.undef, some p, pipeEvents⟩
    | FirstSignal.neither => ⟨Outcome.pending, slot, pipeEvents⟩

/-- One driver emission `(event, payload)` fires every listener registered
for that event name; `portsPipe`/the `connect` loop register one forwarding
listener per name in the subscription list, each re-emitting the same
event with the same payload. -/
def emitForEvent (subs : List String) (e : String × JsValue) :
    List (String × JsValue) :=
  List.replicate (subs.count e.1) e

/-- The adapter-side event trace produced by relaying a driver-side trace
through the forwarding listeners. -/
def relayTrace (subs : List String) (trace : List (String × JsValue)) :
    List (String × JsValue) :=
  (trace.map (emitForEvent subs)).flatten

/-! ## list -/

/-- The action a `Serialport.list`/`Driver.list` completion callback takes
with the enumeration result. -/
inductive ListCbAction where
  | resolveArr (ports : List JsValue)
  | rejectErr (e : String)
  | throwErr (e : String)
  deriving DecidableEq, Repr

/-- The module variant's enumeration callback
(`sugo_module_serialport.js` lines 61–70):
`(err, ports) => { if (err) { throw err } resolve(ports) }` — on an error
it throws `err` inside the driver's callback instead of invoking
`reject`. -/
def moduleListCb (err : Option String) (ports : List JsValue) : ListCbAction :=
  match err with
  | some e => ListCbAction.throwErr e
  | none => ListCbAction.resolveArr ports

/-- The class variant's enumeration callback (`lib/serialport.js`
lines 91–97): `(err, ports) => err ? reject(err) : resolve(ports)`. -/
def classListCb (err : Option String) (ports : List JsValue) : ListCbAction :=
  match err with
  | some e => ListCbAction.rejectErr e
  | none => ListCbAction.resolveArr ports

/-- How the `list` promise settles when the driver invokes the completion
callback asynchronously (after the `Promise` executor has returned), as the
native enumeration does: a `throw` inside the callback is an uncaught
exception, not a rejection, so the promise never settles. -/
def settleListAsync (a : ListCbAction) : Outcome (List JsValue) :=
  match a with
  | ListCbAction.resolveArr ps => Outcome.resolved ps
  | ListCbAction.rejectErr e => Outcome.rejected (JsErr.driverErr e)
  | ListCbAction.throwErr _ => Outcome.pending

/-! ## `$spec` method-name parity

The key lists below are transcribed from the object literals / class body,
in source order.  `Object.keys` on the returned module object yields its
enumerable own keys; `Object.getOwnPropertyNames(Serialport.prototype)`
also yields `constructor` and the accessor properties `driver` and
`$spec`, which the class body declares as getters, not methods.
-/

/-- Own keys of the object returned by `sugoModuleSerialport(config)`,
in declaration order. -/
def moduleKeys : List String :=
  ["ping", "assert", "list", "SerialPort", "open", "isOpen", "write",
   "pause", "resume", "flush", "drain", "close", "set", "update", "$spec"]

/-- Keys of the module variants' `$spec.methods`, in declaration order. -/
def moduleSpecMethodKeys : List String :=
  ["ping", "assert", "list", "SerialPort", "close", "drain", "flush",
   "isOpen", "open", "pause", "resume", "set", "update", "write"]

/-- Own keys of the object returned by `sugoInterfaceSerialport(config)`. -/
def interfaceKeys : List String :=
  ["ping", "assert", "$spec"]

/-- Keys of the interface variant's `$spec.methods`. -/
def interfaceSpecMethodKeys : List String :=
  ["ping", "assert"]

/-- Kind of a class-body member: an ordinary method, an accessor declared
with `get`, or the class constructor. -/
inductive MemberKind where
  | methodM
  | getterM
  | ctorM
  deriving DecidableEq, Repr

/-- Own property names of `Serialport.prototype` (`lib/serialport.js`),
each tagged with the kind the class body declares it with. -/
def classProtoMembers : List (String × MemberKind) :=
  [("constructor", MemberKind.ctorM), ("ping", MemberKind.methodM),
   ("assert", MemberKind.methodM), ("driver", MemberKind.getterM),
   ("list", MemberKind.methodM), ("connect", MemberKind.methodM),
   ("open", MemberKind.methodM), ("isOpen", MemberKind.methodM),
   ("write", MemberKind.methodM), ("pause", MemberKind.methodM),
   ("resume", MemberKind.methodM), ("flush", MemberKind.methodM),
   ("drain", MemberKind.methodM), ("close", MemberKind.methodM),
   ("set", MemberKind.methodM), ("update", MemberKind.methodM),
   ("$spec", MemberKind.getterM)]

/-- Keys of the class variant's `$spec.methods`. -/
def classSpecMethodKeys : List String :=
  ["ping", "assert", "list", "connect", "close", "drain", "flush",
   "isOpen", "open", "pause", "resume", "set", "update", "write"]

/-- The regex `/^[\$_]/` of the test suite: does the name's first
character exist and equal `$` or `_`? -/
def startsDollarUnderscore (n : String) : Bool :=
  match n.data with
  | [] => false
  | c :: _ => c == '$' || c == '_'

/-- The test-suite filter `!/^[\$_]/.test(name)`: keep names not starting
with `$` or `_`. -/
def publicNames (ns : List String) : List String :=
  ns.filter (fun n => !startsDollarUnderscore n)

/-- The class variant's implemented public method names: members declared
as methods (getters and the constructor are properties, not methods),
filtered like the others. -/
def classImplMethodNames : List String :=
  publicNames
    ((classProtoMembers.filter (fun m => m.2 == MemberKind.methodM)).map
      Prod.fst)

/-! ## Idle auto-close timer (interface variant)

Modelled from the spec: the idle auto-close timer of the interface variant
is described in spec §4.4 and §8.6 but no such code exists under `src/`
(`sugo_interface_serialport.js` holds only `ping` and `assert`).  Spec
wording followed: "On every successful `open` and every `write`, a
single-shot timer is (re)armed for `config.timeout` milliseconds (skipped
entirely if `timeout` is `Infinity` ...). Firing the timer closes the
port. ... Re-arming cancels the previous timer."
-/

/-- `config.timeout`: a finite number of milliseconds or `Infinity`. -/
inductive Timeout where
  | fin (ms : Nat)
  | inf
  deriving DecidableEq, Repr

/-- Interface-variant timer state: whether the port is open, and the
absolute time at which the armed single-shot timer fires (`none` = no
timer armed). -/
structure IfaceState where
  portOpen : Bool
  deadline : Option Nat
  deriving DecidableEq, Repr

/-- Modelled from the spec: (re)arm the single-shot idle timer at time
`now` — a finite timeout replaces any previous timer with one due at
`now + t`; with `Infinity` arming is skipped entirely. -/
def armTimer (cfg : Timeout) (now : Nat) (st : IfaceState) : IfaceState :=
  match cfg with
  | Timeout.inf => st
  | Timeout.fin t => { st with deadline := some (now + t) }

/-- Modelled from the spec: if an armed timer's due time has passed by
`now`, it fires and closes the port (single-shot: the timer is
consumed). -/
def fireIfDue (st : IfaceState) (now : Nat) : IfaceState :=
  match st.deadline with
  | some d => if d ≤ now then ⟨false, none⟩ else st
  | none => st

/-- Port-side events that re-arm the timer. -/
inductive PortEvent where
  | openOk
  | writeEv
  deriving DecidableEq, Repr

/-- Modelled from the spec: process one timestamped event — any timer due
by then has fired first; a successful `open` marks the port open and
re-arms, a `write` re-arms. -/
def stepEvent (cfg : Timeout) (st : IfaceState) (e : Nat × PortEvent) :
    IfaceState :=
  let st1 := fireIfDue st e.1
  match e.2 with
  | PortEvent.openOk => armTimer cfg e.1 { st1 with portOpen := true }
  | PortEvent.writeEv => armTimer cfg e.1 st1

/-- Modelled from the spec: run a time-ordered list of events. -/
def runIface (cfg : Timeout) (st : IfaceState)
    (es : List (Nat × PortEvent)) : IfaceState :=
  es.foldl (stepEvent cfg) st

/-- Modelled from the spec: the state an observer sees at time `now`,
after any timer due by `now` has fired. -/
def observeAt (cfg : Timeout) (st : IfaceState)
    (es : List (Nat × PortEvent)) (now : Nat) : IfaceState :=
  fireIfDue (runIface cfg st es) now

/-! ## Theorems -/

/-- C9 counterexample: the ctx-style `ping` invoked with the empty string
resolves to `"pong"`, not to the given string — `params[0] || 'pong'`
treats `""` as falsy. -/
theorem C9_cex :
    (modulePing none [""]).2 = "pong" ∧ (modulePing none [""]).2 ≠ "" := by
  constructor
  · rfl
  · decide

/-- C9 (amended): for every non-empty string `x`, ctx-style `ping` with
`params = [x]` resolves to `x`, and with no argument resolves to
`"pong"`; the class variant echoes every provided string (empty included)
and defaults to `"pong"` when the argument is absent; neither touches the
connection slot. -/
theorem C9_ping_echo (slot : Option Port) (x : String) (h : x ≠ "") :
    modulePing slot [x] = (slot, x)
    ∧ modulePing slot [] = (slot, "pong")
    ∧ classPing slot (some x) = (slot, x)
    ∧ classPing slot none = (slot, "pong") := by
  have hx : x.isEmpty = false := by
    cases hi : x.isEmpty
    · rfl
    · exact absurd ((String.isEmpty_iff x).mp hi) h
  refine ⟨?_, rfl, rfl, rfl⟩
  simp [modulePing, jsOrStr, hx]

/-- C9 witness: the amended theorem evaluated at `x = "a"`. -/
theorem C9_witness :
    modulePing none ["a"] = (none, "a")
    ∧ modulePing none [] = (none, "pong")
    ∧ classPing none (some "a") = (none, "a")
    ∧ classPing none none = (none, "pong") :=
  C9_ping_echo none "a" (by decide)

/-- C5 counterexample: on a truthy error the module variants' `_handle`
does not take exactly the rejection path — it invokes `reject(err)` and
then also `resolve()` (the `if` has no `else`). -/
theorem C5_cex :
    module_handle (some "boom")
      = [ResolutionCall.rejectE (JsErr.driverErr "boom"), ResolutionCall.resolveU]
    ∧ module_handle (some "boom")
      ≠ [ResolutionCall.rejectE (JsErr.driverErr "boom")] := by
  constructor
  · rfl
  · decide

/-- C5 (amended): for every driver-callback outcome, both `_handle`
versions settle the promise exactly once — rejected with the error when it
is truthy, fulfilled otherwise — because the first resolution call wins;
the class version invokes exactly one resolution function, while the
module version additionally invokes `resolve()` after `reject(err)` on a
truthy error (a no-op on the already-settled promise). -/
theorem C5_handle_settle (err : Option String) :
    settleCalls (module_handle err)
      = (match err with
         | some e => Outcome.rejected (JsErr.driverErr e)
         | none => Outcome.resolved JsValue.undef)
    ∧ settleCalls (class_handle err) = settleCalls (module_handle err)
    ∧ settleCalls (module_handle err) ≠ Outcome.pending
    ∧ (class_handle err).length = 1
    ∧ (module_handle err).length
      = (match err with | some _ => 2 | none => 1)
    ∧ (module_handle err).head? = (class_handle err).head? := by
  cases err <;> simp [module_handle, class_handle, settleCalls]

/-- C2 counterexample: the class variant's `isOpen`, invoked with the
`_driver` slot empty, resolves to `null` (`_driver && _driver.isOpen()`)
instead of rejecting with the not-connected error. -/
theorem C2_cex :
    (classDispatch PortMethod.isOpenM none ⟨none, false⟩ JsValue.undef
        JsValue.undef).outcome = Outcome.resolved JsValue.nullv
    ∧ (classDispatch PortMethod.isOpenM none ⟨none, false⟩ JsValue.undef
        JsValue.undef).outcome ≠ Outcome.rejected notConnectedErr := by
  constructor
  · rfl
  · decide

/-- C2 (amended): with the connection slot empty, every one of the nine
I/O methods performs no driver call in either variant; every one of them
rejects with the not-connected error, except the class variant's `isOpen`,
which resolves to `null`. -/
theorem C2_not_connected (m : PortMethod) (env : DriverEnv)
    (data opts : JsValue) :
    (moduleDispatch m none env data opts).outcome
      = Outcome.rejected notConnectedErr
    ∧ (moduleDispatch m none env data opts).calls = []
    ∧ (classDispatch m none env data opts).calls = []
    ∧ (classDispatch m none env data opts).outcome
      = (if m = PortMethod.isOpenM then Outcome.resolved JsValue.nullv
         else Outcome.rejected notConnectedErr) := by
  cases m <;> simp [moduleDispatch, classDispatch]

/-- C1 counterexample: the module variant's `SerialPort`, with a
successfully constructed driver that then reports `open`, leaves its
promise pending forever — the executor never invokes `resolve`. -/
theorem C1_cex :
    (moduleSerialPort none (CtorResult.ok 7) FirstSignal.openFirst).outcome
      = Outcome.pending
    ∧ (moduleSerialPort none (CtorResult.ok 7) FirstSignal.openFirst).outcome
      ≠ Outcome.resolved JsValue.undef
    ∧ (moduleSerialPort none (CtorResult.ok 7)
        (FirstSignal.errorFirst "efail")).outcome = Outcome.pending := by
  refine ⟨rfl, ?_, rfl⟩
  decide

/-- C1 (amended): the class's `connect` resolves once the driver reports
`open`, rejects with the driver error if `error` fires first, and rejects
if the constructor throws synchronously; the module's `SerialPort` rejects
on a synchronous constructor throw but otherwise never settles, whatever
the driver reports (it still stores the port and pipes the events). -/
theorem C1_connect (slot : Option Port) (p : Port) (e : String)
    (fs : FirstSignal) :
    (classConnect slot (CtorResult.ok p) FirstSignal.openFirst).outcome
      = Outcome.resolved JsValue.undef
    ∧ (classConnect slot (CtorResult.ok p) (FirstSignal.errorFirst e)).outcome
      = Outcome.rejected (JsErr.driverErr e)
    ∧ (classConnect slot (CtorResult.throwsE e) fs).outcome
      = Outcome.rejected (JsErr.jsError e)
    ∧ (moduleSerialPort slot (CtorResult.throwsE e) fs).outcome
      = Outcome.rejected (JsErr.jsError e)
    ∧ (moduleSerialPort slot (CtorResult.ok p) fs).outcome = Outcome.pending
    ∧ (moduleSerialPort slot (CtorResult.ok p) fs).slotAfter = some p := by
  cases fs <;> simp [classConnect, moduleSerialPort]

/-- C10: in the class variant, every invocation of `connect` whose promise
rejects — driver `error` before `open`, or a synchronous constructor
throw — leaves the `_driver` slot unchanged; it is assigned only after
the driver reports `open`. -/
theorem C10_driver_slot (slot : Option Port) (ctor : CtorResult)
    (fs : FirstSignal) (e : JsErr)
    (h : (classConnect slot ctor fs).outcome = Outcome.rejected e) :
    (classConnect slot ctor fs).slotAfter = slot := by
  cases ctor with
  | throwsE m => cases fs <;> rfl
  | ok p =>
    cases fs with
    | openFirst => exact absurd h (by simp [classConnect])
    | errorFirst m => rfl
    | neither => rfl

/-- C10 witness: a constructor throw rejects and leaves the slot `none`. -/
theorem C10_witness :
    (classConnect none (CtorResult.throwsE "boom")
        FirstSignal.openFirst).slotAfter = none :=
  C10_driver_slot none (CtorResult.throwsE "boom") FirstSignal.openFirst
    (JsErr.jsError "boom") rfl

/-- C7: no I/O method (the nine of the invariant, nor `open`, nor `ping`)
ever writes the connection slot — each leaves it exactly as found — and
with a populated slot no method can fail with the not-connected assertion
error (in particular, after a successful connect followed by `close` the
slot is still populated, so subsequent I/O never hits the guard). -/
theorem C7_frame (m : PortMethod) (slot : Option Port) (env : DriverEnv)
    (data opts : JsValue) (p : Port) (prms : List String)
    (pong : Option String) :
    (moduleDispatch m slot env data opts).slotAfter = slot
    ∧ (classDispatch m slot env data opts).slotAfter = slot
    ∧ (moduleOpenOp slot env).slotAfter = slot
    ∧ (classOpenOp slot env).slotAfter = slot
    ∧ (modulePing slot prms).1 = slot
    ∧ (classPing slot pong).1 = slot
    ∧ (moduleDispatch m (some p) env data opts).outcome
      ≠ Outcome.rejected notConnectedErr
    ∧ (classDispatch m (some p) env data opts).outcome
      ≠ Outcome.rejected notConnectedErr := by
  rcases env with ⟨err, dOpen⟩
  cases slot <;> cases m <;> cases err <;>
    simp [moduleDispatch, classDispatch, moduleOpenOp, classOpenOp,
      modulePing, classPing, settleCalls, module_handle, class_handle,
      notConnectedErr]

/-- C3: after a successful connect, every event the driver emits whose
type is among the five subscribed ones (`data`, `error`, `close`,
`disconnect`, `open`) is re-emitted exactly once on the adapter's event
surface with the same payload, in the driver's emission order: the relayed
trace equals the driver trace. -/
theorem C3_relay (trace : List (String × JsValue))
    (h : ∀ e ∈ trace, e.1 ∈ pipeEvents) :
    relayTrace pipeEvents trace = trace := by
  induction trace with
  | nil => rfl
  | cons hd tl ih =>
    have h1 : pipeEvents.count hd.1 = 1 :=
      List.count_eq_one_of_mem (by decide) (h hd (by simp))
    have h2 : relayTrace pipeEvents tl = tl :=
      ih (fun e he => h e (List.mem_cons_of_mem _ he))
    simp [relayTrace, emitForEvent, h1] at h2 ⊢
    exact h2

/-- C3 witness: a concrete driver trace with a repeated event type is
relayed unchanged. -/
theorem C3_witness :
    relayTrace pipeEvents
      [("data", JsValue.str "abc"), ("open", JsValue.undef),
       ("data", JsValue.str "abc"), ("close", JsValue.undef)]
    = [("data", JsValue.str "abc"), ("open", JsValue.undef),
       ("data", JsValue.str "abc"), ("close", JsValue.undef)] :=
  C3_relay _ (by decide)

/-- C4: for each of the three adapter variants, the implemented public
method names (names not starting with `$` or `_`; for the class, the
prototype members declared as methods — the `driver` and `$spec` getters
and the constructor are not methods) coincide, as a set, with the keys of
that variant's `$spec.methods`. -/
theorem C4_spec_parity :
    (publicNames moduleKeys).Perm moduleSpecMethodKeys
    ∧ (publicNames interfaceKeys).Perm interfaceSpecMethodKeys
    ∧ classImplMethodNames.Perm classSpecMethodKeys := by
  refine ⟨?_, ?_, ?_⟩ <;> decide

/-- C6: the `list` operation resolves with the driver's port array
unchanged in both variants; but on an enumeration error the module
variant's callback throws the error (`if (err) { throw err }`) instead of
invoking `reject`, so with the asynchronous native enumeration its promise
never rejects — it stays pending — while the class variant's callback
rejects with the error as the claim states. -/
theorem C6_list_throw (ports : List JsValue) :
    settleListAsync (moduleListCb none ports) = Outcome.resolved ports
    ∧ settleListAsync (classListCb none ports) = Outcome.resolved ports
    ∧ moduleListCb (some "enum failed") ports
      = ListCbAction.throwErr "enum failed"
    ∧ settleListAsync (moduleListCb (some "enum failed") ports)
      = Outcome.pending
    ∧ settleListAsync (classListCb (some "enum failed") ports)
      = Outcome.rejected (JsErr.driverErr "enum failed") := by
  simp [moduleListCb, classListCb, settleListAsync]

/-- With timeout `Infinity` arming is always skipped, so a run that starts
with no timer armed and the port open keeps both facts through any event
sequence. -/
theorem inf_run_inv (es : List (Nat × PortEvent)) :
    ∀ st : IfaceState, st.deadline = none → st.portOpen = true →
      (runIface Timeout.inf st es).deadline = none
      ∧ (runIface Timeout.inf st es).portOpen = true := by
  induction es with
  | nil => intro st h1 h2; exact ⟨h1, h2⟩
  | cons e tl ih =>
    intro st h1 h2
    have h3 : (stepEvent Timeout.inf st e).deadline = none
        ∧ (stepEvent Timeout.inf st e).portOpen = true := by
      rcases e with ⟨n, ev⟩
      cases ev <;> simp [stepEvent, fireIfDue, armTimer, h1, h2]
    have h4 := ih (stepEvent Timeout.inf st e) h3.1 h3.2
    simpa [runIface, List.foldl] using h4

/-- C8: with a finite timeout `t`, processing a successful `open` or a
`write` at time `T` (re)arms the single-shot timer for `T + t`; a port
opened at `T` with no subsequent write is observed closed at every time
`now ≥ T + t`; with timeout `Infinity` no timer is ever armed and the
port, once open, is observed open at every later time, whatever events
occur.  (Modelled from the spec: the interface variant's timer code is not
under `src/`.) -/
theorem C8_idle_timer (t T now : Nat) (st : IfaceState) (b : Bool)
    (es : List (Nat × PortEvent)) (h : T + t ≤ now) :
    (stepEvent (Timeout.fin t) st (T, PortEvent.openOk)).deadline
      = some (T + t)
    ∧ (stepEvent (Timeout.fin t) st (T, PortEvent.writeEv)).deadline
      = some (T + t)
    ∧ (observeAt (Timeout.fin t) ⟨b, none⟩ [(T, PortEvent.openOk)]
        now).portOpen = false
    ∧ (runIface Timeout.inf ⟨true, none⟩ es).portOpen = true
    ∧ (observeAt Timeout.inf ⟨true, none⟩ es now).portOpen = true := by
  have hinv := inf_run_inv es ⟨true, none⟩ rfl rfl
  refine ⟨?_, ?_, ?_, hinv.2, ?_⟩
  · simp [stepEvent, armTimer]
  · simp [stepEvent, armTimer]
  · simp [observeAt, runIface, stepEvent, fireIfDue, armTimer, h]
  · simp [observeAt, fireIfDue, hinv.1, hinv.2]

/-- C8 witness: a port opened at time 5 with `timeout = 100` and no write
is closed when observed at time 105; with `timeout = Infinity` it is still
open after an arbitrarily long idle stretch. -/
theorem C8_witness :
    (observeAt (Timeout.fin 100) ⟨true, none⟩ [(5, PortEvent.openOk)]
        105).portOpen = false
    ∧ (observeAt Timeout.inf ⟨true, none⟩
        [(3, PortEvent.openOk), (1000000, PortEvent.writeEv)]
        2000000).portOpen = true := by
  have h := C8_idle_timer 100 5 105 ⟨true, none⟩ true
    [(3, PortEvent.openOk), (1000000, PortEvent.writeEv)] (by norm_num)
  exact ⟨h.2.2.1, h.2.2.2.2⟩

end SugoSerialport
